import Mathlib

/-!
Verification development for the InsureMO rate tool
(src/InsuremoRateTool.py, class InsuremoRateTool).

The Python code is shallowly embedded as executable Lean definitions:

* JSON values (Python dicts/lists/scalars exchanged with the API) are the
  inductive type Json; JSON numbers are modelled as exact rationals, which
  covers every numeric literal appearing in the program and in the claims
  (5234.00 denotes the rational 5234, 0.12 the rational 12/100).
* Python code that can raise is modelled in the exception monad
  Py := Except String; run_sync catches every exception at its
  orchestration boundary, so the embedded run_sync is a total function.
* The HTTP layer is an oracle: a list of per-attempt outcomes for each of
  the two endpoints.  The urllib3 retry machinery itself is an external
  library (not part of this repository); its configuration values are
  embedded from _create_session, and its retry loop is modelled from the
  spec (see sessionPostGo).
* The wall clock is a parameter: today is a day number (days since
  1970-01-01, the Unix epoch), and strftime "%Y-%m-%d" is implemented as
  fmtDate via the standard civil-from-days conversion.
-/

/-- JSON values (also standing for the Python dicts/lists the tool passes
around).  Object fields are an association list in insertion order, matching
Python dict ordering. -/
inductive Json where
  | null
  | bool (b : Bool)
  | num (q : Rat)
  | str (s : String)
  | arr (xs : List Json)
  | obj (kvs : List (String × Json))

/-- Exception monad for embedded Python code: an error is the message of the
raised exception, as caught by the except blocks. -/
abbrev Py (α : Type) := Except String α

/-- Keyword arguments of run_sync: a Python dict of JSON-able values. -/
abbrev Kw := List (String × Json)

/-- Lookup in an association list (Python dict access, first match). -/
def jlookup : List (String × Json) → String → Option Json
  | [], _ => none
  | (k, v) :: rest, key => if k = key then some v else jlookup rest key

/-- Python kwargs.get(key, default). -/
def kwGetD (kw : Kw) (key : String) (d : Json) : Json :=
  (jlookup kw key).getD d

/-- Python truthiness of a JSON value: None, False, 0, empty string, empty
list and empty dict are falsy; everything else is truthy. -/
def pyTruthy : Json → Bool
  | .null => false
  | .bool b => b
  | .num q => q != 0
  | .str s => s != ""
  | .arr xs => !xs.isEmpty
  | .obj kvs => !kvs.isEmpty

/-- Truthiness of an optional value (None for Option.none). -/
def optTruthy : Option Json → Bool
  | none => false
  | some j => pyTruthy j

/-- Name of the Python type of a JSON value, used in exception messages. -/
def pyTypeName : Json → String
  | .null => "NoneType"
  | .bool _ => "bool"
  | .num _ => "int"
  | .str _ => "str"
  | .arr _ => "list"
  | .obj _ => "dict"

/-- Message of the AttributeError raised by value.get(...) on a non-dict. -/
def attrGetError (j : Json) : String :=
  "'" ++ pyTypeName j ++ "' object has no attribute 'get'"

/-- Python value.get(key): None default; raises AttributeError unless the
value is a dict. -/
def pyGet (j : Json) (key : String) : Py (Option Json) :=
  match j with
  | .obj kvs => .ok (jlookup kvs key)
  | _ => .error (attrGetError j)

/-- Python value.get(key, default); raises AttributeError unless the value
is a dict. -/
def pyGetD (j : Json) (key : String) (d : Json) : Py Json :=
  match j with
  | .obj kvs => .ok ((jlookup kvs key).getD d)
  | _ => .error (attrGetError j)

/-- Python value[0]: list/str indexing, KeyError on dicts, TypeError on
scalars.  The messages never surface (all uses sit inside a try block). -/
def pyIndex0 : Json → Py Json
  | .arr [] => .error "list index out of range"
  | .arr (x :: _) => .ok x
  | .str s =>
    match s.data with
    | [] => .error "string index out of range"
    | c :: _ => .ok (.str (String.mk [c]))
  | .obj _ => .error "KeyError: 0"
  | .num _ => .error "'int' object is not subscriptable"
  | .bool _ => .error "'bool' object is not subscriptable"
  | .null => .error "'NoneType' object is not subscriptable"

/-- Python int(x) conversion as used on the numeric kwargs: truncation
toward zero on numbers (Int.tdiv, matching int(-2.5) = -2), 0/1 on bools,
sign-and-digits decimal parse on strings (a subset of Python's tolerance:
surrounding whitespace, a leading plus and digit-group underscores are not
modelled, and no kwarg in any claim uses them), TypeError/ValueError
otherwise. -/
def pyIntConv : Json → Py Int
  | .num q => .ok (q.num.tdiv (q.den : Int))
  | .bool b => .ok (if b then 1 else 0)
  | .str s =>
    match s.toInt? with
    | some n => .ok n
    | none => .error ("invalid literal for int() with base 10: '" ++ s ++ "'")
  | j => .error ("int() argument must be a string, a bytes-like object or a real number, not '" ++ pyTypeName j ++ "'")

/-- Total accessor used on the spec side to inspect result objects
(returns the default on non-objects instead of raising). -/
def jGetD (j : Json) (key : String) (d : Json) : Json :=
  match j with
  | .obj kvs => (jlookup kvs key).getD d
  | _ => d

/-- Total accessor used on the spec side: first element of a JSON array. -/
def jIdx0 : Json → Json
  | .arr (x :: _) => x
  | _ => .null

/-! ### Dates: datetime.now / timedelta / strftime "%Y-%m-%d" -/

/-- Gregorian civil date (year, month, day) from a day number counted from
1970-01-01, by the standard civil-from-days algorithm (truncating integer
division, matching the era adjustment). -/
def civilFromDays (z0 : Int) : Int × Nat × Nat :=
  let z : Int := z0 + 719468
  let era : Int := (if 0 ≤ z then z else z - 146096) / 146097
  let doe : Nat := (z - era * 146097).toNat
  let yoe : Nat := (doe - doe / 1460 + doe / 36524 - doe / 146096) / 365
  let y : Int := (yoe : Int) + era * 400
  let doy : Nat := doe - (365 * yoe + yoe / 4 - yoe / 100)
  let mp : Nat := (5 * doy + 2) / 153
  let d : Nat := doy - (153 * mp + 2) / 5 + 1
  let m : Nat := if mp < 10 then mp + 3 else mp - 9
  (if m ≤ 2 then y + 1 else y, m, d)

/-- Zero-pad a number below 100 to two digits (strftime %m, %d). -/
def pad2 (n : Nat) : String :=
  if n < 10 then "0" ++ toString n else toString n

/-- strftime("%Y-%m-%d") of a day number. -/
def fmtDate (z : Int) : String :=
  let ymd := civilFromDays z
  toString ymd.1 ++ "-" ++ pad2 ymd.2.1 ++ "-" ++ pad2 ymd.2.2

/-- Result of _get_default_dates: five formatted date strings. -/
structure DefaultDates where
  proposalDate : String
  effectiveDate : String
  expiryDate : String
  dateStarted : String
  dateOfBirth : String
deriving Repr, DecidableEq

/-- InsuremoRateTool._get_default_dates, with datetime.now() replaced by the
fixed clock today (a day number); timedelta(days=n) is day-number
addition. -/
def get_default_dates (today : Int) : DefaultDates :=
  { proposalDate := fmtDate today
    effectiveDate := fmtDate today
    expiryDate := fmtDate (today + 365)
    dateStarted := fmtDate (today - 730)
    dateOfBirth := fmtDate (today - 730) }

/-! ### Payload builders -/

/-- InsuremoRateTool._build_gl_classification: fixed GL classification
section. -/
def build_gl_classification : Json :=
  .obj [
    ("XClassCode", .str "10100"),
    ("XClassDescription", .str "Bakeries"),
    ("PolicyCoverageList", .arr [
      .obj [
        ("XInstallServiceDemonstrateProducts", .str "No"),
        ("XForeignProductsSoldDistributedUsed", .str "No"),
        ("XResearchDevelopmentNewProducts", .str "No"),
        ("XGuaranteesWarrantiesHoldHarmless", .str "No"),
        ("XProductsAircraftSpaceIndustry", .str "No"),
        ("XProductsRecalledDiscontinuedChanged", .str "No"),
        ("XProductsOthersSoldRepackaged", .str "No"),
        ("XProductsUnderLabelOfOthers", .str "No"),
        ("XVendorsCoverageRequired", .str "No"),
        ("XNamedInsuredSellToOtherInsureds", .str "No"),
        ("XProdsCompldOpsPremiumBasis", .str "Gross Sales"),
        ("XProdsCompldOpsCovExposure", .num 1000000),
        ("XProdsCompldOpsRate", .num 0.12),
        ("ProductElementCode", .str "MASTERGENLIA01BASELAYERLOCATIONCLASSIFICATIONPRODSCOMPLDOPSCOVERAGE")
      ],
      .obj [
        ("XPremOpsPremiumBasis", .str "Gross Sales"),
        ("XPremOpsExposure", .num 1000000),
        ("ProductElementCode", .str "MASTERGENLIA01BASELAYERLOCATIONCLASSIFICATIONPREMOPSCOVERAGE")
      ]
    ]),
    ("ProductElementCode", .str "MASTERGENLIA01BASELAYERLOCATIONGLCLASSIFICATION")
  ]

/-- InsuremoRateTool._build_building_coverage.  The two int(...) conversions
on buildingLimit and bppLimit may raise; they are evaluated in source
order. -/
def build_building_coverage (kw : Kw) : Py Json := do
  let bl ← pyIntConv (kwGetD kw "buildingLimit" (.num 500000))
  let bpp ← pyIntConv (kwGetD kw "bppLimit" (.num 100000))
  pure (.obj [
    ("XUnitNumber", .num 1),
    ("XDesignatedAsHistoricalLandmark", .str "No"),
    ("XBldgImpWiring", .str "No"),
    ("XBldgImpPlumbing", .str "No"),
    ("XBldgImpRoofing", .str "No"),
    ("XBldgImpHeating", .str "No"),
    ("XWindClass", .str "NA"),
    ("XSolidFuelHeater", .str "No"),
    ("XBurglarAlarmCentralStation", .str "No"),
    ("XBurglarAlarmLocalGong", .str "No"),
    ("XGuardsClockFreq", .str "Hourly"),
    ("XFireAlarmCentralStation", .str "No"),
    ("XFireAlarmLocalGong", .str "No"),
    ("XBldgDescription", .str "Commercial Building"),
    ("XOpenSides", .num 0),
    ("XConstructionType", .str "FireResistive"),
    ("XNumberOfStories", .num 1),
    ("XYearBuilt", .num 2010),
    ("XTotalArea", .num 5000),
    ("XBCEG", .num 2),
    ("PolicyCoverageList", .arr [
      .obj [
        ("XCoverageOnPolicyIndicator", .num 1),
        ("XBldgCovCoins", .str "80"),
        ("XBldgCovValuation", .str "A"),
        ("XBldgCovCauseOfLoss", .str "Special"),
        ("XBldgCovInflationGuard", .num 5),
        ("XBldgCovDeductible", .num 500),
        ("XBldgCovLimit", .num (bl : Rat)),
        ("ProductElementCode", .str "MASTERGENLIA01BASELAYERLOCATIONCFBUILDINGBUILDINGCOVERAGE")
      ],
      .obj [
        ("XCoverageOnPolicyIndicator", .num 1),
        ("XPersonalProperty", .str "Yes"),
        ("XPropertyOfOthers", .str "Yes"),
        ("XStock", .str "No"),
        ("XFixturesFurnitures", .str "No"),
        ("XMachineryEquipment", .str "No"),
        ("XBPPCovCoins", .str "80"),
        ("XBPPCovValuation", .str "A"),
        ("XBPPCovCauseOfLoss", .str "Special"),
        ("XBPPCovInflationGuard", .num 5),
        ("XBPPCovDeductible", .num 500),
        ("XBPPCovLimit", .num (bpp : Rat)),
        ("ProductElementCode", .str "MASTERGENLIA01BASELAYERLOCATIONCFBUILDINGBPPCOVERAGE")
      ],
      .obj [
        ("XCoverageOnPolicyIndicator", .num 1),
        ("XBICCoverage", .str "BusinessIncomeWithExtraExpense"),
        ("XBICCovCoins", .str "80"),
        ("XBICCovCauseOfLoss", .str "Special"),
        ("XWaitingPeriodDays", .num 3),
        ("XBICOrdinaryPayrollExcluded", .str "No"),
        ("XBICOrdinaryPayrollLimitation", .str "90Days"),
        ("XBICExtendedPeriodOfIndemnity", .str "No"),
        ("XBICMonthlyPeriodOfIndemnity", .str "No"),
        ("XBICMaximumPeriodOfIndemnity", .str "No"),
        ("XBICPowerHeatDed", .str "No"),
        ("XBICEMediaRec", .str "No"),
        ("XBIEOrdOrLaw", .str "No"),
        ("XBICCivilAuth", .str "No"),
        ("XBICOffPremSrvInt", .str "No"),
        ("XBICDependProp", .str "No"),
        ("XBICCovLimit", .num 200000),
        ("XBICTypeOfBusiness", .str "NonManufacturing"),
        ("ProductElementCode", .str "MASTERGENLIA01BASELAYERLOCATIONCFBUILDINGBIC")
      ],
      .obj [
        ("XCoverageOnPolicyIndicator", .num 0),
        ("XSCDeductible", .num 500),
        ("XSCRefrigMaintAgreement", .str "No"),
        ("XSCBreakdownOrContamination", .str "No"),
        ("XSCPowerOutage", .str "No"),
        ("XSCSellingPrice", .str "No"),
        ("ProductElementCode", .str "MASTERGENLIA01BASELAYERLOCATIONCFBUILDINGSPOILAGECOVERAGE")
      ]
    ]),
    ("ProductElementCode", .str "MASTERGENLIA01BASELAYERLOCATIONCFBUILDING")
  ])

/-- InsuremoRateTool._build_risk_section.  The int(...) conversions on
fullTimeEmpl and partTimeEmpl may raise, before the nested building
coverage is built. -/
def build_risk_section (kw : Kw) : Py Json := do
  let ft ← pyIntConv (kwGetD kw "fullTimeEmpl" (.num 5))
  let pt ← pyIntConv (kwGetD kw "partTimeEmpl" (.num 0))
  let bc ← build_building_coverage kw
  pure (.obj [
    ("XUnitNumber", .num 1),
    ("XAnyAreaLeasedToOthers", .str "No"),
    ("XProtectionClass", .str "5"),
    ("XGLPremium", .num 0),
    ("XCFPremium", .num 0),
    ("XCalculatedTotalPremium", .num 0),
    ("XPremium", .num 0),
    ("XPolicyTermPremium", .num 0),
    ("XAddress1", kwGetD kw "address1" (.str "")),
    ("XCity", kwGetD kw "city" (.str "")),
    ("XAddress2", .str ""),
    ("XCounty", .str ""),
    ("XState", kwGetD kw "state" (.str "")),
    ("XZipCode", kwGetD kw "zipCode" (.str "")),
    ("XCityLimits", .str "Inside"),
    ("XLocInterest", .str "Owner"),
    ("XFullTimeEmpl", .num (ft : Rat)),
    ("XPartTimeEmpl", .num (pt : Rat)),
    ("PolicyRiskList", .arr [build_gl_classification, bc]),
    ("ProductElementCode", .str "MASTERGENLIA01BASELAYERLOCATION")
  ])

/-- InsuremoRateTool._build_lob_section.  XDateStarted comes from a second
call to _get_default_dates; with the clock fixed to today both calls
agree. -/
def build_lob_section (today : Int) (kw : Kw) : Py Json := do
  let risk ← build_risk_section kw
  pure (.obj [
    ("XCGLIncluded", .str "Yes"),
    ("XCFIncluded", .str "Yes"),
    ("XEachOccurrenceLimit", kwGetD kw "eachOccurrenceLimit" (.str "1,000,000 CSL")),
    ("XGeneralAggregateLimit", kwGetD kw "generalAggregateLimit" (.str "2,000,000 CSL")),
    ("XPersonalAdvertisingInjuryLimit", .str "1000000"),
    ("XDamageToRentedPremisesLimit", .str "100000"),
    ("XMedicalExpenseLimit", .str "5000"),
    ("XProdsCompldOpsAggregateLimit", kwGetD kw "generalAggregateLimit" (.str "2,000,000 CSL")),
    ("XBIDeductibles", .str "1,000 Per Occurrence"),
    ("XPDDeductibles", .str "1,000 Per Occurrence"),
    ("XMedicalFacilitiesOrProfessionals", .str "No"),
    ("XExposureToRadioactiveMaterials", .str "No"),
    ("XOperationsInvolvingHazardousMaterial", .str "No"),
    ("XOperationsSoldAcquiredDiscontinued5Years", .str "No"),
    ("XMachineryEquipmentLoanedOrRented", .str "No"),
    ("XWatercraftDocksFloatsOwnedHiredLeased", .str "No"),
    ("XParkingFacilitiesOwnedRented", .str "No"),
    ("XFeeChargedForParking", .str "No"),
    ("XRecreationFacilitiesProvided", .str "No"),
    ("XSwimmingPoolOnPremises", .str "No"),
    ("XSportingSocialEventsSponsored", .str "No"),
    ("XStructuralAlterationsContemplated", .str "No"),
    ("XDemolitionExposureContemplated", .str "No"),
    ("XActiveInJointVentures", .str "No"),
    ("XLeaseEmployeesToFromOtherEmployers", .str "No"),
    ("XLaborInterchangeWithOtherBusinesses", .str "No"),
    ("XDayCareFacilitiesOperatedControlled", .str "No"),
    ("XCrimesOccurredOnPremisesLast3Years", .str "No"),
    ("XWrittenSafetySecurityPolicyInEffect", .str "No"),
    ("XPromotionalLiteratureSafetySecurity", .str "No"),
    ("XLossHistorySumaryHeader", .str "No"),
    ("XLossHistoryYears", .num 3),
    ("XCalculatedTotalPremium", .num 0),
    ("XPremium", .num 0),
    ("XPolicyTermPremium", .num 0),
    ("XFinalPremium", .num 0),
    ("XSIC", .str "5461"),
    ("XNAICSCode", kwGetD kw "naicsCode" (.str "311811")),
    ("XNAICSDefinition", kwGetD kw "naicsDefinition" (.str "Retail Bakeries")),
    ("XLegalStructure", kwGetD kw "legalStructure" (.str "LLC")),
    ("XLLCNumOfMembersManagers", .num 2),
    ("XBusinessType", kwGetD kw "businessType" (.str "Retail")),
    ("XDateStarted", .str (get_default_dates today).dateStarted),
    ("XPrimaryOperations", .str ""),
    ("XRetailPct", .num 100),
    ("PolicyRiskList", .arr [risk]),
    ("ProductCode", .str "X_CO_US_USCGLPP8"),
    ("ProductElementCode", .str "X_CO_US_USCGLPP8")
  ])

/-- InsuremoRateTool._build_policy_payload: the complete policy-creation
document, derived dates computed by _get_default_dates at the fixed
clock. -/
def build_policy_payload (today : Int) (kw : Kw) : Py Json := do
  let dates := get_default_dates today
  let lob ← build_lob_section today kw
  pure (.obj [
    ("ProductCode", .str "X_CO_US_USCGLPP8"),
    ("ProductVersion", .str "20240801_V01"),
    ("OrgCode", .str "10001"),
    ("AgentCode", .str "PTY10000039468001"),
    ("PremiumCurrencyCode", .str "USD"),
    ("BookCurrencyCode", .str "USD"),
    ("PremiumBookExchangeRate", .num 1),
    ("LocalCurrencyCode", .str "USD"),
    ("PremiumLocalExchangeRate", .num 1),
    ("ProposalDate", .str dates.proposalDate),
    ("EffectiveDate", .str dates.effectiveDate),
    ("ExpiryDate", .str dates.expiryDate),
    ("PolicyCustomerList", .arr [
      .obj [
        ("CustomerName", kwGetD kw "customerName" (.str "")),
        ("CustomerNo", kwGetD kw "customerNo" (.str "CO00000001")),
        ("DateOfBirth", .str dates.dateOfBirth),
        ("IdNo", kwGetD kw "idNo" (.str "01010101")),
        ("IdType", .str "4"),
        ("IsOrgParty", .str "N"),
        ("PolicyStatus", .num 2),
        ("PostCode", kwGetD kw "postCode" (kwGetD kw "zipCode" (.str ""))),
        ("CustomerType", .str "OrgCustomer"),
        ("State", kwGetD kw "state" (.str "")),
        ("IsPolicyHolder", .str "Y")
      ]
    ]),
    ("PolicyPaymentInfoList", .arr [
      .obj [
        ("PayModeCode", .num 100),
        ("IsInstallment", .str "N"),
        ("InstallmentType", .str "10"),
        ("BillingType", .str "1")
      ]
    ]),
    ("PolicyLobList", .arr [lob])
  ])

/-! ### HTTP session, retry configuration and the two API calls -/

/-- The class-level config dict of InsuremoRateTool. -/
structure ToolConfig where
  timeout_seconds : Nat
  max_retries : Nat
  backoff_factor : Nat
deriving Repr, DecidableEq

/-- InsuremoRateTool.config. -/
def config : ToolConfig :=
  { timeout_seconds := 30, max_retries := 3, backoff_factor := 1 }

/-- The urllib3 Retry object assembled by _create_session (both the
new-style allowed_methods branch and the method_whitelist fallback carry
the same values). -/
structure RetryStrategy where
  total : Nat
  status_forcelist : List Nat
  backoff_factor : Nat
  allowed_methods : List String
deriving Repr, DecidableEq

/-- Retry strategy configured in InsuremoRateTool._create_session. -/
def create_session_retry : RetryStrategy :=
  { total := config.max_retries
    status_forcelist := [429, 500, 502, 503, 504]
    backoff_factor := config.backoff_factor
    allowed_methods := ["HEAD", "GET", "PUT", "DELETE", "OPTIONS", "TRACE", "POST"] }

/-- One attempted HTTP exchange as seen by the transport: either a response
with a status code and a parsed JSON body (none when the body is not valid
JSON, so that response.json() raises), or a transport-level exception. -/
inductive Attempt where
  | resp (status : Nat) (body : Option Json)
  | exn (msg : String)

/-- What session.post surfaces to the caller after the retry machinery. -/
inductive PostOutcome where
  | resp (status : Nat) (body : Option Json)
  | exn (msg : String)

/-- Modelled from the spec: the retry loop executed by the urllib3 Retry
object lives in the external urllib3 library, not in this repository.  Per
the spec, the session performs the initial request plus up to total
retries; a response whose status is in status_forcelist, or a transport
error, consumes a retry, and once the budget is exhausted the transport
error propagates (requests raises RetryError / the last transport
exception).  The second component counts the HTTP requests actually
made.  budget is the number of requests still allowed. -/
def sessionPostGo : Nat → List Attempt → PostOutcome × Nat
  | _, [] => (.exn "Max retries exceeded", 0)
  | 0, _ => (.exn "Max retries exceeded", 0)
  | n + 1, a :: rest =>
    match a with
    | .exn m =>
      if n = 0 then (.exn m, 1)
      else
        let r := sessionPostGo n rest
        (r.1, r.2 + 1)
    | .resp st body =>
      if create_session_retry.status_forcelist.contains st then
        if n = 0 then (.exn "too many error responses", 1)
        else
          let r := sessionPostGo n rest
          (r.1, r.2 + 1)
      else (.resp st body, 1)

/-- session.post through the configured retry strategy: initial request
plus up to max_retries retries. -/
def sessionPost (attempts : List Attempt) : PostOutcome × Nat :=
  sessionPostGo (create_session_retry.total + 1) attempts

/-- The two endpoints run_sync can POST to (ENDPOINTS create/calculate). -/
inductive Endpoint where
  | create
  | calculate
deriving Repr, DecidableEq

/-- One HTTP request issued by the tool: target endpoint and JSON body. -/
structure Call where
  endpoint : Endpoint
  body : Json

/-- The HTTP oracle for one run_sync invocation: the transport attempts
answered to a create post and to a calculate post. -/
structure Oracle where
  createAttempts : List Attempt
  calcAttempts : List Attempt

/-- InsuremoRateTool._create_policy: builds the payload (exceptions caught,
yielding None), POSTs it to the create endpoint, treats any non-200
response and any exception as None, otherwise the parsed JSON body.
Also returns the list of HTTP requests issued. -/
def create_policy (today : Int) (kw : Kw) (attempts : List Attempt) :
    Option Json × List Call :=
  match build_policy_payload today kw with
  | .error _ => (none, [])
  | .ok payload =>
    let res :=
      match (sessionPost attempts).1 with
      | .exn _ => none
      | .resp st body => if st = 200 then body else none
    (res, [⟨.create, payload⟩])

/-- InsuremoRateTool._calculate_premium: POSTs the given policy document to
the calculate endpoint; non-200 responses and exceptions yield None,
otherwise the parsed JSON body. -/
def calculate_premium (policy_data : Json) (attempts : List Attempt) :
    Option Json × List Call :=
  let res :=
    match (sessionPost attempts).1 with
    | .exn _ => none
    | .resp st body => if st = 200 then body else none
  (res, [⟨.calculate, policy_data⟩])

/-! ### Response shaping -/

/-- The try block of _extract_premium_breakdown: walk
PolicyLobList[0].PolicyRiskList[0] and read XGLPremium / XCFPremium; any
exception on the way leaves the still-unassigned fields at their default
0 (the assignment to glPremium happens before the read of XCFPremium). -/
def extract_gl_prop (pd : Json) : Json × Json :=
  match pyGetD pd "PolicyLobList" (.arr []) with
  | .error _ => (.num 0, .num 0)
  | .ok lob_list =>
    if pyTruthy lob_list then
      match pyIndex0 lob_list with
      | .error _ => (.num 0, .num 0)
      | .ok first =>
        match pyGetD first "PolicyRiskList" (.arr []) with
        | .error _ => (.num 0, .num 0)
        | .ok risk_list =>
          if pyTruthy risk_list then
            match pyIndex0 risk_list with
            | .error _ => (.num 0, .num 0)
            | .ok location =>
              match pyGetD location "XGLPremium" (.num 0) with
              | .error _ => (.num 0, .num 0)
              | .ok gl =>
                match pyGetD location "XCFPremium" (.num 0) with
                | .error _ => (gl, .num 0)
                | .ok prop => (gl, prop)
          else (.num 0, .num 0)
    else (.num 0, .num 0)

/-- InsuremoRateTool._extract_premium_breakdown.  The initial .get calls
raise (AttributeError) when policy_data is not a dict; the defensive
walk for glPremium / propertyPremium is extract_gl_prop. -/
def extract_premium_breakdown (policy_data : Json) : Py Json := do
  let total ← pyGetD policy_data "TotalPremium" (.num 0)
  let gross ← pyGetD policy_data "GrossPremium" (.num 0)
  let glprop := extract_gl_prop policy_data
  pure (.obj [
    ("totalPremium", total),
    ("grossPremium", gross),
    ("glPremium", glprop.1),
    ("propertyPremium", glprop.2),
    ("buildingPremium", .num 0),
    ("bppPremium", .num 0),
    ("biPremium", .num 0)])

/-- InsuremoRateTool._create_success_response.  The premium breakdown is
computed first; glPremium and propertyPremium of the result are read back
from it (those keys are always present in the constructed breakdown). -/
def create_success_response (calculated_data : Json) : Py Json := do
  let premium_breakdown ← extract_premium_breakdown calculated_data
  let pn ← pyGet calculated_data "ProposalNo"
  let pid ← pyGet calculated_data "PolicyId"
  let tp ← pyGetD calculated_data "TotalPremium" (.num 0)
  let gp ← pyGetD calculated_data "GrossPremium" (.num 0)
  let com ← pyGetD calculated_data "Commission" (.num 0)
  let cr ← pyGetD calculated_data "CommissionRate" (.num 0)
  let eff ← pyGet calculated_data "EffectiveDate"
  let exd ← pyGet calculated_data "ExpiryDate"
  pure (.obj [
    ("success", .bool true),
    ("proposalNo", pn.getD .null),
    ("policyId", pid.getD .null),
    ("totalPremium", tp),
    ("grossPremium", gp),
    ("commission", com),
    ("commissionRate", cr),
    ("glPremium", jGetD premium_breakdown "glPremium" .null),
    ("propertyPremium", jGetD premium_breakdown "propertyPremium" .null),
    ("effectiveDate", eff.getD .null),
    ("expiryDate", exd.getD .null),
    ("premiumBreakdown", premium_breakdown)])

/-- InsuremoRateTool._create_error_response: the uniform failure shape. -/
def create_error_response (error_message : String) : Json :=
  .obj [
    ("success", .bool false),
    ("error", .str error_message),
    ("errorDetails", .obj [
      ("type", .str "ProcessingError"),
      ("message", .str error_message)])]

/-! ### run_sync -/

/-- The required_fields list of run_sync. -/
def requiredFields : List String :=
  ["customerName", "address1", "city", "state", "zipCode"]

/-- The missing_fields list comprehension of run_sync: required fields
whose kwargs value is absent or falsy. -/
def missing_required (kw : Kw) : List String :=
  requiredFields.filter (fun f => !pyTruthy (kwGetD kw f .null))

/-- Credential resolution of _initialize: the kwargs override when truthy,
else the environment variable (os.getenv: none when unset). -/
def resolveCred (kwVal : Option Json) (envVal : Option String) : Json :=
  let v := kwVal.getD .null
  if pyTruthy v then v
  else
    match envVal with
    | some s => .str s
    | none => .null

/-- kwargs.pop of the two credential keys before the pipeline runs. -/
def popCreds (kwargs : Kw) : Kw :=
  kwargs.filter (fun kv => kv.1 != "api_token" && kv.1 != "base_url")

/-- InsuremoRateTool.run_sync: credential initialization, required-field
validation, create, proposal-number extraction, calculate, response
shaping; every exception is caught at this boundary and converted through
_create_error_response.  Returns the result dict together with the list
of HTTP requests issued. -/
def run_sync (today : Int) (envToken envUrl : Option String) (kwargs : Kw)
    (o : Oracle) : Json × List Call :=
  let api_token := resolveCred (jlookup kwargs "api_token") envToken
  if !pyTruthy api_token then
    (create_error_response "API token required. Provide as parameter or set INSUREMO_API_TOKEN", [])
  else
    let base_url := resolveCred (jlookup kwargs "base_url") envUrl
    if !pyTruthy base_url then
      (create_error_response "Base URL required. Provide as parameter or set INSUREMO_BASE_URL", [])
    else
      let kw := popCreds kwargs
      let missing_fields := missing_required kw
      if !missing_fields.isEmpty then
        (create_error_response ("Missing required fields: " ++ String.intercalate ", " missing_fields), [])
      else
        match create_policy today kw o.createAttempts with
        | (created_data, calls1) =>
          if !optTruthy created_data then
            (create_error_response "Failed to create policy", calls1)
          else
            let created := created_data.getD .null
            match pyGet created "ProposalNo" with
            | .error m => (create_error_response m, calls1)
            | .ok proposal_no =>
              if !pyTruthy (proposal_no.getD .null) then
                (create_error_response "No proposal number returned from create API", calls1)
              else
                match calculate_premium created o.calcAttempts with
                | (calculated_data, calls2) =>
                  let calls := calls1 ++ calls2
                  if !optTruthy calculated_data then
                    (create_error_response "Failed to calculate premium", calls)
                  else
                    match create_success_response (calculated_data.getD .null) with
                    | .ok res => (res, calls)
                    | .error m => (create_error_response m, calls)

/-! ### Shared concrete fixtures -/

/-- Extract the value of a successful Py computation (null on error);
used only to name concrete computed values in the theorems below. -/
def pyOkD (x : Py Json) : Json :=
  match x with
  | .ok j => j
  | .error _ => .null

/-- The Small Retail Bakery request of the test scenarios (required fields
only). -/
def bakeryKw : Kw := [
  ("customerName", .str "Sweet Dreams Bakery LLC"),
  ("address1", .str "123 Main Street"),
  ("city", .str "Houston"),
  ("state", .str "TX"),
  ("zipCode", .str "77001")]

/-- A well-formed create-endpoint response body. -/
def goodCreate : Json :=
  .obj [("ProposalNo", .str "P123"), ("PolicyId", .num 7)]

/-- The calculate-step response of the claim C4 example. -/
def c4calc : Json :=
  .obj [
    ("TotalPremium", .num 5234),
    ("PolicyLobList", .arr [
      .obj [("PolicyRiskList", .arr [
        .obj [("XGLPremium", .num 2500), ("XCFPremium", .num 2734)]])]])]

/-- The policy payload built for the bakery request at clock day 20000. -/
def bakeryPayload : Json :=
  pyOkD (build_policy_payload 20000 bakeryKw)

/-! ### Helper lemmas -/

theorem create_success_response_ok (cd j : Json)
    (h : create_success_response cd = .ok j) :
    jGetD j "success" .null = .bool true := by
  simp only [create_success_response, extract_premium_breakdown, bind, Except.bind, pure,
    Except.pure] at h
  repeat' split at h
  all_goals simp_all only [Except.ok.injEq, reduceCtorEq]
  subst h
  rfl

theorem run_sync_success_or_error (today : Int) (envT envUrl : Option String)
    (kwargs : Kw) (o : Oracle) :
    jGetD (run_sync today envT envUrl kwargs o).1 "success" .null = .bool true ∨
    ∃ m, (run_sync today envT envUrl kwargs o).1 = create_error_response m := by
  unfold run_sync
  dsimp only
  repeat' split
  all_goals try exact Or.inr ⟨_, rfl⟩
  rename_i heq
  exact Or.inl (create_success_response_ok _ _ heq)

/-- Claim C6: run_sync never propagates an exception to its caller: for
every input and every behaviour of the HTTP layer (all exception sources
are modelled as Except values caught at the boundary, so the embedded
run_sync is a total function), it returns a result dictionary, and every
failure result has the uniform shape success:false / error /
errorDetails:{type, message}. -/
theorem C6_uniform_failure_thm (today : Int) (envToken envUrl : Option String)
    (kwargs : Kw) (o : Oracle) :
    jGetD (run_sync today envToken envUrl kwargs o).1 "success" .null = .bool true ∨
    ∃ m, (run_sync today envToken envUrl kwargs o).1 =
      .obj [("success", .bool false), ("error", .str m),
        ("errorDetails", .obj [("type", .str "ProcessingError"), ("message", .str m)])] :=
  run_sync_success_or_error today envToken envUrl kwargs o

/-- Claim C9: for every failure result produced by run_sync, regardless of
the cause, errorDetails.type is the constant "ProcessingError" and
errorDetails.message equals the top-level error string. -/
theorem C9_error_details_thm (today : Int) (envToken envUrl : Option String)
    (kwargs : Kw) (o : Oracle)
    (h : jGetD (run_sync today envToken envUrl kwargs o).1 "success" .null = .bool false) :
    jGetD (jGetD (run_sync today envToken envUrl kwargs o).1 "errorDetails" .null)
        "type" .null = .str "ProcessingError" ∧
    jGetD (jGetD (run_sync today envToken envUrl kwargs o).1 "errorDetails" .null)
        "message" .null = jGetD (run_sync today envToken envUrl kwargs o).1 "error" .null ∧
    ∃ m, jGetD (run_sync today envToken envUrl kwargs o).1 "error" .null = .str m := by
  rcases run_sync_success_or_error today envToken envUrl kwargs o with hl | ⟨m, hm⟩
  · rw [hl] at h
    simp at h
  · rw [hm]
    exact ⟨rfl, rfl, m, rfl⟩

/-- Witness for C9 at a concrete failing invocation (no credentials
configured). -/
theorem C9_error_details_witness :
    jGetD (jGetD (run_sync 0 none none [] ⟨[], []⟩).1 "errorDetails" .null)
        "type" .null = .str "ProcessingError" ∧
    jGetD (jGetD (run_sync 0 none none [] ⟨[], []⟩).1 "errorDetails" .null)
        "message" .null = jGetD (run_sync 0 none none [] ⟨[], []⟩).1 "error" .null ∧
    ∃ m, jGetD (run_sync 0 none none [] ⟨[], []⟩).1 "error" .null = .str m :=
  C9_error_details_thm 0 none none [] ⟨[], []⟩ rfl

/-- Claim C10: required-field validation treats falsy values as absent: a
request supplying customerName = "" (all other required fields present and
truthy) is rejected exactly as a missing customerName, with that field
named in the missing-fields message, and no HTTP request is made. -/
theorem C10_falsy_field_thm (today : Int) (o : Oracle) :
    run_sync today (some "T") (some "U")
      [("customerName", .str ""), ("address1", .str "123 Main Street"),
       ("city", .str "Houston"), ("state", .str "TX"), ("zipCode", .str "77001")] o =
    (create_error_response "Missing required fields: customerName", []) := rfl

/-- Lookup is unchanged by filtering when the predicate keeps the looked-up
key. -/
theorem jlookup_filter (p : String × Json → Bool) (l : List (String × Json)) (f : String)
    (hp : ∀ v, p (f, v) = true) :
    jlookup (l.filter p) f = jlookup l f := by
  induction l with
  | nil => rfl
  | cons kv rest ih =>
    obtain ⟨k, v⟩ := kv
    by_cases hk : k = f
    · subst hk
      rw [List.filter_cons_of_pos (hp v)]
      simp [jlookup]
    · by_cases hc : p (k, v) = true
      · rw [List.filter_cons_of_pos hc]
        simp only [jlookup, if_neg hk]
        exact ih
      · rw [List.filter_cons_of_neg (by simpa using hc)]
        rw [ih]
        simp [jlookup, if_neg hk]

/-- Popping the credential keys does not change the lookup of any other
key. -/
theorem jlookup_popCreds (kwargs : Kw) (f : String)
    (h1 : f ≠ "api_token") (h2 : f ≠ "base_url") :
    jlookup (popCreds kwargs) f = jlookup kwargs f :=
  jlookup_filter _ kwargs f (fun v => by simp [popCreds, h1, h2])

/-- Claim C1: whenever the credentials resolve (the out-of-scope
environment precondition of the tool) and at least one of the five
required fields is absent from the request, run_sync returns the
validation failure whose message lists exactly the fields failing the
required-field check, and no HTTP request is issued. -/
theorem C1_validation_thm (today : Int) (envToken envUrl : Option String)
    (kwargs : Kw) (o : Oracle)
    (ht : pyTruthy (resolveCred (jlookup kwargs "api_token") envToken) = true)
    (hu : pyTruthy (resolveCred (jlookup kwargs "base_url") envUrl) = true)
    (hm : ∃ f, f ∈ requiredFields ∧ jlookup kwargs f = none) :
    run_sync today envToken envUrl kwargs o =
      (create_error_response ("Missing required fields: " ++
        String.intercalate ", " (missing_required (popCreds kwargs))), []) ∧
    ∀ f, f ∈ missing_required (popCreds kwargs) ↔
      f ∈ requiredFields ∧ pyTruthy (kwGetD (popCreds kwargs) f .null) = false := by
  obtain ⟨f, hf, habs⟩ := hm
  have hne1 : f ≠ "api_token" := by
    rintro rfl
    simp [requiredFields] at hf
  have hne2 : f ≠ "base_url" := by
    rintro rfl
    simp [requiredFields] at hf
  have habs' : jlookup (popCreds kwargs) f = none :=
    (jlookup_popCreds kwargs f hne1 hne2).trans habs
  have hfmem : f ∈ missing_required (popCreds kwargs) := by
    simp [missing_required, List.mem_filter, hf, kwGetD, habs', pyTruthy]
  have hnonempty : (missing_required (popCreds kwargs)).isEmpty = false := by
    cases hmr : missing_required (popCreds kwargs) with
    | nil => rw [hmr] at hfmem; cases hfmem
    | cons a l => rfl
  constructor
  · unfold run_sync
    dsimp only
    simp [ht, hu, hnonempty]
  · intro g
    simp [missing_required, List.mem_filter]

/-- Witness for C1 at a concrete request missing four required fields. -/
theorem C1_validation_witness :
    run_sync 0 (some "T") (some "U") [("address1", .str "1 Main")] ⟨[], []⟩ =
      (create_error_response "Missing required fields: customerName, city, state, zipCode", []) :=
  (C1_validation_thm 0 (some "T") (some "U") [("address1", .str "1 Main")] ⟨[], []⟩ rfl rfl
    ⟨"customerName", by simp [requiredFields], rfl⟩).1

/-- A successfully built line-of-business section carries
XDateStarted = today - 730 days. -/
theorem build_lob_section_ok (today : Int) (kw : Kw) (lob : Json)
    (h : build_lob_section today kw = .ok lob) :
    jGetD lob "XDateStarted" .null = .str (fmtDate (today - 730)) := by
  simp only [build_lob_section, bind, Except.bind, pure, Except.pure] at h
  split at h
  · exact absurd h (by simp)
  · injection h with h
    subst h
    rfl

/-- Inversion of a successful _build_policy_payload: the top-level derived
dates and the customer date of birth are in place, and the single
line-of-business entry is a successfully built lob section. -/
theorem build_policy_payload_ok (today : Int) (kw : Kw) (payload : Json)
    (hb : build_policy_payload today kw = .ok payload) :
    ∃ lob, build_lob_section today kw = .ok lob ∧
      jGetD payload "ProposalDate" .null = .str (fmtDate today) ∧
      jGetD payload "EffectiveDate" .null = .str (fmtDate today) ∧
      jGetD payload "ExpiryDate" .null = .str (fmtDate (today + 365)) ∧
      jGetD (jIdx0 (jGetD payload "PolicyCustomerList" .null)) "DateOfBirth" .null
        = .str (fmtDate (today - 730)) ∧
      jIdx0 (jGetD payload "PolicyLobList" .null) = lob := by
  simp only [build_policy_payload, bind, Except.bind, pure, Except.pure] at hb
  split at hb
  · exact absurd hb (by simp)
  · rename_i lob heq
    injection hb with hb
    subst hb
    exact ⟨lob, heq, rfl, rfl, rfl, rfl, rfl⟩

/-- Claim C3: for every request and every fixed value of the clock today,
the document produced by _build_policy_payload (when payload building
succeeds) has ProposalDate = EffectiveDate = today, ExpiryDate =
today + 365 days, and DateOfBirth (first customer) = XDateStarted (first
line of business) = today - 730 days, all formatted YYYY-MM-DD by
fmtDate. -/
theorem C3_dates_thm (today : Int) (kw : Kw) (payload : Json)
    (hb : build_policy_payload today kw = .ok payload) :
    jGetD payload "ProposalDate" .null = .str (fmtDate today) ∧
    jGetD payload "EffectiveDate" .null = .str (fmtDate today) ∧
    jGetD payload "ExpiryDate" .null = .str (fmtDate (today + 365)) ∧
    jGetD (jIdx0 (jGetD payload "PolicyCustomerList" .null)) "DateOfBirth" .null
      = .str (fmtDate (today - 730)) ∧
    jGetD (jIdx0 (jGetD payload "PolicyLobList" .null)) "XDateStarted" .null
      = .str (fmtDate (today - 730)) := by
  obtain ⟨lob, hlob, h1, h2, h3, h4, h5⟩ := build_policy_payload_ok today kw payload hb
  refine ⟨h1, h2, h3, h4, ?_⟩
  rw [h5]
  exact build_lob_section_ok today kw lob hlob

/-- Witness for C3 at clock day 20000 and the empty request (all payload
defaults). -/
theorem C3_dates_witness :
    jGetD (pyOkD (build_policy_payload 20000 [])) "ProposalDate" .null
      = .str (fmtDate 20000) ∧
    jGetD (pyOkD (build_policy_payload 20000 [])) "EffectiveDate" .null
      = .str (fmtDate 20000) ∧
    jGetD (pyOkD (build_policy_payload 20000 [])) "ExpiryDate" .null
      = .str (fmtDate (20000 + 365)) ∧
    jGetD (jIdx0 (jGetD (pyOkD (build_policy_payload 20000 [])) "PolicyCustomerList" .null))
      "DateOfBirth" .null = .str (fmtDate (20000 - 730)) ∧
    jGetD (jIdx0 (jGetD (pyOkD (build_policy_payload 20000 [])) "PolicyLobList" .null))
      "XDateStarted" .null = .str (fmtDate (20000 - 730)) :=
  C3_dates_thm 20000 [] (pyOkD (build_policy_payload 20000 [])) rfl

/-- A create call whose payload builds and whose session surfaces an HTTP
200 response hands the parsed body to the caller. -/
theorem create_policy_resp (today : Int) (kw : Kw) (attempts : List Attempt)
    (payload : Json) (st : Nat) (body : Option Json)
    (hb : build_policy_payload today kw = .ok payload)
    (hs : (sessionPost attempts).1 = .resp st body) :
    create_policy today kw attempts =
      (if st = 200 then body else none, [⟨.create, payload⟩]) := by
  simp [create_policy, hb, hs]

/-- Counterexample to claim C2 as stated: a create response of HTTP 200
whose parsed body is the empty JSON object (hence has no ProposalNo field)
makes run_sync fail with the message "Failed to create policy" — not with
a message about the missing proposal number — though indeed without
calling the calculate endpoint. -/
theorem C2_missing_proposal_cex :
    (run_sync 20000 (some "T") (some "U") bakeryKw
        ⟨[.resp 200 (some (.obj []))], []⟩).1
      = create_error_response "Failed to create policy" ∧
    jGetD (run_sync 20000 (some "T") (some "U") bakeryKw
        ⟨[.resp 200 (some (.obj []))], []⟩).1 "error" .null
      ≠ .str "No proposal number returned from create API" ∧
    ((run_sync 20000 (some "T") (some "U") bakeryKw
        ⟨[.resp 200 (some (.obj []))], []⟩).2.map Call.endpoint) = [.create] := by
  refine ⟨rfl, ?_, rfl⟩
  have h : jGetD (run_sync 20000 (some "T") (some "U") bakeryKw
      ⟨[.resp 200 (some (.obj []))], []⟩).1 "error" .null
      = .str "Failed to create policy" := rfl
  rw [h]
  intro hcontra
  injection hcontra with hcontra
  exact absurd hcontra (by decide)

/-- Claim C2 as amended: when the create call returns HTTP 200 and its
parsed body is a non-empty JSON object without a ProposalNo field, the
result is the failure "No proposal number returned from create API" and
the calculate endpoint is never called (the only HTTP request is the
create one); an empty object body instead fails earlier with "Failed to
create policy". -/
theorem C2_missing_proposal_thm (today : Int) (envToken envUrl : Option String)
    (kwargs : Kw) (o : Oracle) (payload : Json) (ckvs : List (String × Json))
    (ht : pyTruthy (resolveCred (jlookup kwargs "api_token") envToken) = true)
    (hu : pyTruthy (resolveCred (jlookup kwargs "base_url") envUrl) = true)
    (hm : missing_required (popCreds kwargs) = [])
    (hb : build_policy_payload today (popCreds kwargs) = .ok payload)
    (hcr : (sessionPost o.createAttempts).1 = .resp 200 (some (.obj ckvs)))
    (hne : ckvs.isEmpty = false)
    (hpn : jlookup ckvs "ProposalNo" = none) :
    run_sync today envToken envUrl kwargs o =
      (create_error_response "No proposal number returned from create API",
        [⟨.create, payload⟩]) := by
  have hcp : create_policy today (popCreds kwargs) o.createAttempts
      = (some (.obj ckvs), [⟨.create, payload⟩]) := by
    simpa using create_policy_resp today (popCreds kwargs) o.createAttempts payload 200
      (some (.obj ckvs)) hb hcr
  have hobj : pyTruthy (.obj ckvs) = true := by
    simp [pyTruthy, hne]
  have hnull : pyTruthy .null = false := rfl
  unfold run_sync
  dsimp only
  rw [hcp]
  simp [ht, hu, hm, optTruthy, hobj, pyGet, hpn, hnull]

/-- Witness for the amended C2 at a concrete non-empty create body lacking
ProposalNo. -/
theorem C2_missing_proposal_witness :
    run_sync 20000 (some "T") (some "U") bakeryKw
        ⟨[.resp 200 (some (.obj [("foo", .num 1)]))], []⟩ =
      (create_error_response "No proposal number returned from create API",
        [⟨.create, bakeryPayload⟩]) :=
  C2_missing_proposal_thm 20000 (some "T") (some "U") bakeryKw
    ⟨[.resp 200 (some (.obj [("foo", .num 1)]))], []⟩ bakeryPayload
    [("foo", .num 1)] rfl rfl rfl rfl rfl rfl rfl

/-- Shape of a successful _create_success_response on a JSON-object
calculate body: the binds all succeed and the result fields are direct
lookups, with the premium sub-fields taken from the defensive
extraction. -/
theorem create_success_response_obj (kvs : List (String × Json)) :
    create_success_response (.obj kvs) = .ok (.obj [
      ("success", .bool true),
      ("proposalNo", (jlookup kvs "ProposalNo").getD .null),
      ("policyId", (jlookup kvs "PolicyId").getD .null),
      ("totalPremium", (jlookup kvs "TotalPremium").getD (.num 0)),
      ("grossPremium", (jlookup kvs "GrossPremium").getD (.num 0)),
      ("commission", (jlookup kvs "Commission").getD (.num 0)),
      ("commissionRate", (jlookup kvs "CommissionRate").getD (.num 0)),
      ("glPremium", (extract_gl_prop (.obj kvs)).1),
      ("propertyPremium", (extract_gl_prop (.obj kvs)).2),
      ("effectiveDate", (jlookup kvs "EffectiveDate").getD .null),
      ("expiryDate", (jlookup kvs "ExpiryDate").getD .null),
      ("premiumBreakdown", .obj [
        ("totalPremium", (jlookup kvs "TotalPremium").getD (.num 0)),
        ("grossPremium", (jlookup kvs "GrossPremium").getD (.num 0)),
        ("glPremium", (extract_gl_prop (.obj kvs)).1),
        ("propertyPremium", (extract_gl_prop (.obj kvs)).2),
        ("buildingPremium", .num 0),
        ("bppPremium", .num 0),
        ("biPremium", .num 0)])]) := rfl

/-- The nested premium structure of a calculate body is absent or empty:
the defensive walk of _extract_premium_breakdown fails to reach a
risk-location object at some level — PolicyLobList absent, falsy (empty
list or any other falsy value) or not indexable, its first entry not an
object or with PolicyRiskList absent or falsy or not indexable, or the
first risk entry not an object. -/
def riskStructureMissing (kvs : List (String × Json)) : Bool :=
  match pyGetD (.obj kvs) "PolicyLobList" (.arr []) with
  | .error _ => true
  | .ok lob_list =>
    if pyTruthy lob_list then
      match pyIndex0 lob_list with
      | .error _ => true
      | .ok first =>
        match pyGetD first "PolicyRiskList" (.arr []) with
        | .error _ => true
        | .ok risk_list =>
          if pyTruthy risk_list then
            match pyIndex0 risk_list with
            | .error _ => true
            | .ok location =>
              match location with
              | .obj _ => false
              | _ => true
          else true
    else true

/-- Whenever the nested structure is absent or empty at any level (the
defensive walk fails anywhere), the premium extraction leaves both
sub-premiums at their default 0. -/
theorem extract_gl_prop_default (kvs : List (String × Json))
    (h : riskStructureMissing kvs = true) :
    extract_gl_prop (.obj kvs) = (.num 0, .num 0) := by
  unfold riskStructureMissing at h
  unfold extract_gl_prop
  repeat' split at h
  all_goals simp_all [pyGetD]

/-- The full success path of run_sync: credentials resolve, validation
passes, the create call surfaces 200 with a truthy object containing a
truthy ProposalNo, and the calculate call surfaces 200 with a truthy
object; the result is the shaped success response and exactly the two
HTTP requests were made, the second carrying the parsed create
response. -/
theorem run_sync_success (today : Int) (envToken envUrl : Option String)
    (kwargs : Kw) (o : Oracle) (payload : Json)
    (ckvs kvs : List (String × Json)) (pn : Json)
    (ht : pyTruthy (resolveCred (jlookup kwargs "api_token") envToken) = true)
    (hu : pyTruthy (resolveCred (jlookup kwargs "base_url") envUrl) = true)
    (hm : missing_required (popCreds kwargs) = [])
    (hb : build_policy_payload today (popCreds kwargs) = .ok payload)
    (hcr : (sessionPost o.createAttempts).1 = .resp 200 (some (.obj ckvs)))
    (hcne : ckvs.isEmpty = false)
    (hpn : jlookup ckvs "ProposalNo" = some pn)
    (hpt : pyTruthy pn = true)
    (hca : (sessionPost o.calcAttempts).1 = .resp 200 (some (.obj kvs)))
    (hkne : kvs.isEmpty = false) :
    run_sync today envToken envUrl kwargs o =
      (pyOkD (create_success_response (.obj kvs)),
        [⟨.create, payload⟩, ⟨.calculate, .obj ckvs⟩]) := by
  have hcp : create_policy today (popCreds kwargs) o.createAttempts
      = (some (.obj ckvs), [⟨.create, payload⟩]) := by
    simpa using create_policy_resp today (popCreds kwargs) o.createAttempts payload 200
      (some (.obj ckvs)) hb hcr
  have hcalc : calculate_premium (.obj ckvs) o.calcAttempts
      = (some (.obj kvs), [⟨.calculate, .obj ckvs⟩]) := by
    simp [calculate_premium, hca]
  have hcobj : pyTruthy (.obj ckvs) = true := by
    simp [pyTruthy, hcne]
  have hkobj : pyTruthy (.obj kvs) = true := by
    simp [pyTruthy, hkne]
  unfold run_sync
  dsimp only
  rw [hcp]
  simp [ht, hu, hm, optTruthy, hcobj, hkobj, pyGet, hpn, hpt, hcalc,
    create_success_response_obj, pyOkD]

/-- Counterexample to the universal half of claim C4 as stated: a
calculate-step HTTP 200 whose parsed body is the empty JSON object (the
nested premium structure is certainly absent) does not yield success:true
with zero premiums — run_sync fails with "Failed to calculate premium",
because the orchestrator treats a falsy calculate body as a failed
call. -/
theorem C4_premium_extraction_cex :
    (run_sync 20000 (some "T") (some "U") bakeryKw
        ⟨[.resp 200 (some goodCreate)], [.resp 200 (some (.obj []))]⟩).1
      = create_error_response "Failed to calculate premium" ∧
    jGetD (run_sync 20000 (some "T") (some "U") bakeryKw
        ⟨[.resp 200 (some goodCreate)], [.resp 200 (some (.obj []))]⟩).1
      "success" .null = .bool false := ⟨rfl, rfl⟩

/-- Claim C4 as amended: premium extraction reads the general-liability
and property premiums from the first risk entry of the first
line-of-business entry — on the claim C4 example calculate response the
result has glPremium 2500 and propertyPremium 2734 — and for every
calculate-step response whose parsed body is a truthy (non-empty) JSON
object, the call returns success:true with glPremium and propertyPremium
equal to the values of the defensive extraction, which default both to 0
whenever the nested structure is absent or empty at any level
(riskStructureMissing); an empty object body instead fails with "Failed
to calculate premium", per the counterexample. -/
theorem C4_premium_extraction_thm :
    (jGetD (run_sync 20000 (some "T") (some "U") bakeryKw
        ⟨[.resp 200 (some goodCreate)], [.resp 200 (some c4calc)]⟩).1
      "glPremium" .null = .num 2500 ∧
     jGetD (run_sync 20000 (some "T") (some "U") bakeryKw
        ⟨[.resp 200 (some goodCreate)], [.resp 200 (some c4calc)]⟩).1
      "propertyPremium" .null = .num 2734 ∧
     jGetD (run_sync 20000 (some "T") (some "U") bakeryKw
        ⟨[.resp 200 (some goodCreate)], [.resp 200 (some c4calc)]⟩).1
      "success" .null = .bool true) ∧
    (∀ (today : Int) (envToken envUrl : Option String) (kwargs : Kw) (o : Oracle)
       (payload : Json) (ckvs kvs : List (String × Json)) (pn : Json),
      pyTruthy (resolveCred (jlookup kwargs "api_token") envToken) = true →
      pyTruthy (resolveCred (jlookup kwargs "base_url") envUrl) = true →
      missing_required (popCreds kwargs) = [] →
      build_policy_payload today (popCreds kwargs) = .ok payload →
      (sessionPost o.createAttempts).1 = .resp 200 (some (.obj ckvs)) →
      ckvs.isEmpty = false →
      jlookup ckvs "ProposalNo" = some pn →
      pyTruthy pn = true →
      (sessionPost o.calcAttempts).1 = .resp 200 (some (.obj kvs)) →
      kvs.isEmpty = false →
      jGetD (run_sync today envToken envUrl kwargs o).1 "glPremium" .null
        = (extract_gl_prop (.obj kvs)).1 ∧
      jGetD (run_sync today envToken envUrl kwargs o).1 "propertyPremium" .null
        = (extract_gl_prop (.obj kvs)).2 ∧
      jGetD (run_sync today envToken envUrl kwargs o).1 "success" .null = .bool true) ∧
    (∀ kvs : List (String × Json), riskStructureMissing kvs = true →
      extract_gl_prop (.obj kvs) = (.num 0, .num 0)) := by
  refine ⟨⟨rfl, rfl, rfl⟩, ?_, fun kvs h => extract_gl_prop_default kvs h⟩
  intro today envToken envUrl kwargs o payload ckvs kvs pn ht hu hm hb hcr hcne hpn hpt hca hkne
  rw [run_sync_success today envToken envUrl kwargs o payload ckvs kvs pn
    ht hu hm hb hcr hcne hpn hpt hca hkne]
  simp [create_success_response_obj, pyOkD, jGetD, jlookup]

/-- Witness for the amended C4 at a concrete truthy calculate body whose
structure breaks below the top: PolicyLobList is present and non-empty,
but its first entry has no PolicyRiskList, so both premiums default to 0
and the run still succeeds. -/
theorem C4_premium_extraction_witness :
    riskStructureMissing [("PolicyLobList", .arr [.obj []])] = true ∧
    jGetD (run_sync 20000 (some "T") (some "U") bakeryKw
      ⟨[.resp 200 (some goodCreate)],
       [.resp 200 (some (.obj [("PolicyLobList", .arr [.obj []])]))]⟩).1
      "glPremium" .null = .num 0 ∧
    jGetD (run_sync 20000 (some "T") (some "U") bakeryKw
      ⟨[.resp 200 (some goodCreate)],
       [.resp 200 (some (.obj [("PolicyLobList", .arr [.obj []])]))]⟩).1
      "propertyPremium" .null = .num 0 ∧
    jGetD (run_sync 20000 (some "T") (some "U") bakeryKw
      ⟨[.resp 200 (some goodCreate)],
       [.resp 200 (some (.obj [("PolicyLobList", .arr [.obj []])]))]⟩).1
      "success" .null = .bool true := by
  have hB := C4_premium_extraction_thm.2.1 20000 (some "T") (some "U") bakeryKw
    ⟨[.resp 200 (some goodCreate)],
     [.resp 200 (some (.obj [("PolicyLobList", .arr [.obj []])]))]⟩
    bakeryPayload [("ProposalNo", .str "P123"), ("PolicyId", .num 7)]
    [("PolicyLobList", .arr [.obj []])] (.str "P123")
    rfl rfl rfl rfl rfl rfl rfl rfl rfl rfl
  have hC := C4_premium_extraction_thm.2.2 [("PolicyLobList", .arr [.obj []])] rfl
  refine ⟨rfl, ?_, ?_, hB.2.2⟩
  · rw [hB.1, hC]
  · rw [hB.2.1, hC]

/-- Claim C7: in every run that reaches the calculate step (in particular
in every successful run), the body POSTed to the calculate endpoint is
exactly the parsed JSON document returned by the create call — the second
issued request carries the create response object, not the originally
built payload. -/
theorem C7_calculate_body_thm (today : Int) (envToken envUrl : Option String)
    (kwargs : Kw) (o : Oracle) (payload : Json)
    (ckvs kvs : List (String × Json)) (pn : Json)
    (ht : pyTruthy (resolveCred (jlookup kwargs "api_token") envToken) = true)
    (hu : pyTruthy (resolveCred (jlookup kwargs "base_url") envUrl) = true)
    (hm : missing_required (popCreds kwargs) = [])
    (hb : build_policy_payload today (popCreds kwargs) = .ok payload)
    (hcr : (sessionPost o.createAttempts).1 = .resp 200 (some (.obj ckvs)))
    (hcne : ckvs.isEmpty = false)
    (hpn : jlookup ckvs "ProposalNo" = some pn)
    (hpt : pyTruthy pn = true)
    (hca : (sessionPost o.calcAttempts).1 = .resp 200 (some (.obj kvs)))
    (hkne : kvs.isEmpty = false) :
    (run_sync today envToken envUrl kwargs o).2 =
      [⟨.create, payload⟩, ⟨.calculate, .obj ckvs⟩] := by
  rw [run_sync_success today envToken envUrl kwargs o payload ckvs kvs pn
    ht hu hm hb hcr hcne hpn hpt hca hkne]

/-- Witness for C7 at a concrete successful run. -/
theorem C7_calculate_body_witness :
    (run_sync 20000 (some "T") (some "U") bakeryKw
      ⟨[.resp 200 (some goodCreate)], [.resp 200 (some c4calc)]⟩).2 =
      [⟨.create, bakeryPayload⟩,
       ⟨.calculate, .obj [("ProposalNo", .str "P123"), ("PolicyId", .num 7)]⟩] :=
  C7_calculate_body_thm 20000 (some "T") (some "U") bakeryKw
    ⟨[.resp 200 (some goodCreate)], [.resp 200 (some c4calc)]⟩
    bakeryPayload [("ProposalNo", .str "P123"), ("PolicyId", .num 7)]
    [("TotalPremium", .num 5234),
     ("PolicyLobList", .arr [
       .obj [("PolicyRiskList", .arr [
         .obj [("XGLPremium", .num 2500), ("XCFPremium", .num 2734)]])]])]
    (.str "P123") rfl rfl rfl rfl rfl rfl rfl rfl rfl rfl

/-- When the create step hands back None on the bakery request, run_sync
returns the fixed create-failure message together with the single create
request. -/
theorem run_sync_bakery_create_failed (o : Oracle)
    (hcp : create_policy 20000 (popCreds bakeryKw) o.createAttempts
      = (none, [⟨.create, bakeryPayload⟩])) :
    run_sync 20000 (some "T") (some "U") bakeryKw o =
      (create_error_response "Failed to create policy", [⟨.create, bakeryPayload⟩]) := by
  unfold run_sync
  dsimp only
  rw [hcp]
  rfl

/-- When the create step succeeds with the goodCreate document but the
calculate step hands back None on the bakery request, run_sync returns the
fixed calculate-failure message together with the two issued requests. -/
theorem run_sync_bakery_calc_failed (o : Oracle)
    (hcp : create_policy 20000 (popCreds bakeryKw) o.createAttempts
      = (some goodCreate, [⟨.create, bakeryPayload⟩]))
    (hca : calculate_premium goodCreate o.calcAttempts
      = (none, [⟨.calculate, goodCreate⟩])) :
    run_sync 20000 (some "T") (some "U") bakeryKw o =
      (create_error_response "Failed to calculate premium",
        [⟨.create, bakeryPayload⟩, ⟨.calculate, goodCreate⟩]) := by
  unfold run_sync
  dsimp only
  rw [hcp]
  dsimp only [Option.getD]
  rw [hca]
  rfl

/-- Counterexample to claim C5 as stated: two non-200 create responses
with different status codes and different bodies produce identical
caller-visible results — the fixed "Failed to create policy" failure — so
the failure reaching the caller carries neither the status nor the body of
the failing response (_create_policy returns None, logging them only). -/
theorem C5_http_error_cex :
    run_sync 20000 (some "T") (some "U") bakeryKw
        ⟨[.resp 404 (some (.str "body one"))], []⟩ =
      run_sync 20000 (some "T") (some "U") bakeryKw
        ⟨[.resp 403 (some (.str "body two"))], []⟩ ∧
    (run_sync 20000 (some "T") (some "U") bakeryKw
        ⟨[.resp 404 (some (.str "body one"))], []⟩).1 =
      create_error_response "Failed to create policy" := ⟨rfl, rfl⟩

/-- Claim C5 as amended: for every non-200 response surfaced by the
session (here: any status outside the retryable set and different from
200, with any body), _create_policy returns None and run_sync yields the
fixed failure "Failed to create policy"; likewise _calculate_premium
returns None and run_sync yields "Failed to calculate premium" — the
status code and body are logged but not preserved in the caller-visible
result. -/
theorem C5_http_error_thm (st : Nat) (body : Option Json)
    (hs : create_session_retry.status_forcelist.contains st = false)
    (h200 : st ≠ 200) :
    (create_policy 20000 bakeryKw [.resp st body]).1 = none ∧
    run_sync 20000 (some "T") (some "U") bakeryKw ⟨[.resp st body], []⟩ =
      (create_error_response "Failed to create policy", [⟨.create, bakeryPayload⟩]) ∧
    (calculate_premium goodCreate [.resp st body]).1 = none ∧
    run_sync 20000 (some "T") (some "U") bakeryKw
        ⟨[.resp 200 (some goodCreate)], [.resp st body]⟩ =
      (create_error_response "Failed to calculate premium",
        [⟨.create, bakeryPayload⟩, ⟨.calculate, goodCreate⟩]) := by
  have hs' : st ∉ create_session_retry.status_forcelist := by
    simpa using hs
  have hpost : (sessionPost [.resp st body]).1 = .resp st body := by
    simp [sessionPost, sessionPostGo, hs']
  have hbuild : build_policy_payload 20000 (popCreds bakeryKw) = .ok bakeryPayload := rfl
  have hcp : create_policy 20000 (popCreds bakeryKw) [.resp st body]
      = (none, [⟨.create, bakeryPayload⟩]) := by
    rw [create_policy_resp 20000 (popCreds bakeryKw) [.resp st body] bakeryPayload st body
      hbuild hpost]
    simp [h200]
  have hca : calculate_premium goodCreate [.resp st body]
      = (none, [⟨.calculate, goodCreate⟩]) := by
    simp [calculate_premium, hpost, h200]
  refine ⟨?_, ?_, ?_, ?_⟩
  · rw [show create_policy 20000 bakeryKw [.resp st body]
        = create_policy 20000 (popCreds bakeryKw) [.resp st body] from rfl, hcp]
  · exact run_sync_bakery_create_failed ⟨[.resp st body], []⟩ hcp
  · rw [hca]
  · exact run_sync_bakery_calc_failed ⟨[.resp 200 (some goodCreate)], [.resp st body]⟩
      rfl hca

/-- Witness for the amended C5 at status 404. -/
theorem C5_http_error_witness :
    create_session_retry.status_forcelist.contains 404 = false ∧ 404 ≠ 200 ∧
    ((create_policy 20000 bakeryKw [.resp 404 (some (.str "oops"))]).1 = none ∧
     run_sync 20000 (some "T") (some "U") bakeryKw ⟨[.resp 404 (some (.str "oops"))], []⟩ =
       (create_error_response "Failed to create policy", [⟨.create, bakeryPayload⟩]) ∧
     (calculate_premium goodCreate [.resp 404 (some (.str "oops"))]).1 = none ∧
     run_sync 20000 (some "T") (some "U") bakeryKw
         ⟨[.resp 200 (some goodCreate)], [.resp 404 (some (.str "oops"))]⟩ =
       (create_error_response "Failed to calculate premium",
         [⟨.create, bakeryPayload⟩, ⟨.calculate, goodCreate⟩])) :=
  ⟨rfl, by decide, C5_http_error_thm 404 (some (.str "oops")) rfl (by decide)⟩

/-- Four consecutive 503 responses answered to the create post, then a
successful response that is never requested. -/
def attempts503 : List Attempt :=
  [.resp 503 (some (.str "Service Unavailable")),
   .resp 503 (some (.str "Service Unavailable")),
   .resp 503 (some (.str "Service Unavailable")),
   .resp 503 (some (.str "Service Unavailable")),
   .resp 200 (some goodCreate)]

/-- Claim C8: the session retry strategy is configured with total = 3,
retryable statuses {429, 500, 502, 503, 504}, backoff factor 1, and POST
among the retried methods; under the spec-modelled urllib3 retry loop, a
create-step sequence of repeated HTTP 503 responses is retried 3 times
(4 requests in all — the fifth, successful response is never requested)
and only then does run_sync return a failure result. -/
theorem C8_retry_config_thm :
    create_session_retry.total = 3 ∧
    create_session_retry.status_forcelist = [429, 500, 502, 503, 504] ∧
    create_session_retry.backoff_factor = 1 ∧
    "POST" ∈ create_session_retry.allowed_methods ∧
    (sessionPost attempts503).2 = 4 ∧
    (sessionPost attempts503).1 = .exn "too many error responses" ∧
    run_sync 20000 (some "T") (some "U") bakeryKw ⟨attempts503, []⟩ =
      (create_error_response "Failed to create policy", [⟨.create, bakeryPayload⟩]) := by
  refine ⟨rfl, rfl, rfl, by decide, rfl, rfl, ?_⟩
  exact run_sync_bakery_create_failed ⟨attempts503, []⟩ rfl
